import Mathlib

/-!
Verification of the Planfix reminder engine.

This file gives a shallow embedding of the reminder scheduling and
deduplication core of the repository: the mutable state and the operations of
the TaskTracker class in task_tracker.py, and the task categorizer of
TaskProcessor in planfix_api.py, together with theorems checking the
specified properties.

Modelling conventions:
- Python strings are lists of characters (abbrev Str below);
- wall-clock time is a natural number of minutes, passed explicitly to every
  operation that calls datetime.now() in the source;
- the Python set of active notification ids is a duplicate-free list;
- Python dictionaries keyed by task id (the tracked-task dictionary and the
  dynamic per-task notification attributes) are association lists whose keys
  are unique in every reachable state.
-/

namespace Planfix

abbrev Str := List Char

def strOf (s : String) : Str := s.toList

/-- Test whether the first list is an initial segment of the second. -/
def startsWith : Str → Str → Bool
  | [], _ => true
  | _ :: _, [] => false
  | c :: p, d :: s2 => c = d && startsWith p s2

/-- Substring test, modelling the Python expression pat in s on strings. -/
def hasSub (pat : Str) : Str → Bool
  | [] => pat.isEmpty
  | c :: rest => startsWith pat (c :: rest) || hasSub pat rest

/-- Dictionary lookup on an association list. -/
def alookup {α : Type} (k : Str) : List (Str × α) → Option α
  | [] => none
  | (k2, v) :: rest => if k2 = k then some v else alookup k rest

/-- Dictionary write: overwrite the binding of k in place, or append it. -/
def aset {α : Type} (k : Str) (v : α) : List (Str × α) → List (Str × α)
  | [] => [(k, v)]
  | (k2, v2) :: rest => if k2 = k then (k, v) :: rest else (k2, v2) :: aset k v rest

/-- Dictionary deletion of key k. -/
def aremove {α : Type} (k : Str) : List (Str × α) → List (Str × α)
  | [] => []
  | (k2, v2) :: rest => if k2 = k then aremove k rest else (k2, v2) :: aremove k rest

/-- Set insertion, modelling Python set.add on the active-notification set. -/
def sinsert (x : Str) (l : List Str) : List Str :=
  if x ∈ l then l else l ++ [x]

/-- Set removal, modelling Python set.remove. -/
def sremove (x : Str) : List Str → List Str
  | [] => []
  | y :: rest => if y = x then sremove x rest else y :: sremove x rest

/-- Decimal rendering of a timestamp, as it appears inside an f-string. -/
def natDigits (n : Nat) : Str := Nat.toDigits 10 n

/-- Mirror of the TaskState dataclass in task_tracker.py. -/
structure TaskState where
  task_id : Str
  closed_time : Nat
  snooze_until : Option Nat := none
  auto_closed : Bool := false
  category : Str := strOf "current"
deriving DecidableEq

/-- Mutable state of the TaskTracker class: the tracked-task dictionary
_tracked_tasks, the set _active_notifications of active notification ids, and
the dynamic _notification_for_<task_id> attributes collected into a map. -/
structure Tracker where
  tracked : List (Str × TaskState)
  active : List Str
  notifFor : List (Str × Str)
deriving DecidableEq

def Tracker.empty : Tracker := ⟨[], [], []⟩

/-- The _reshow_intervals dictionary, read with .get(category, 30). -/
def reshowIntervals (c : Str) : Nat :=
  if c = strOf "overdue" then 5
  else if c = strOf "urgent" then 15
  else if c = strOf "current" then 30
  else 30

/-- Number of active notification ids containing the text _<category>_,
exactly as counted inside _check_window_limits. -/
def categoryWindowCount (tr : Tracker) (category : Str) : Nat :=
  (tr.active.filter (fun nid => hasSub (strOf "_" ++ category ++ strOf "_") nid)).length

/-- Mirror of TaskTracker._check_window_limits. -/
def checkWindowLimits (tr : Tracker) (category : Str) (maxTotal maxCategory : Nat) : Bool :=
  if tr.active.length ≥ maxTotal then false
  else if categoryWindowCount tr category ≥ maxCategory then false
  else true

/-- The notification id built in register_notification_shown:
the f-string <task_id>_<category>_<timestamp>. -/
def mkNotifId (taskId category : Str) (now : Nat) : Str :=
  taskId ++ strOf "_" ++ category ++ strOf "_" ++ natDigits now

/-- Mirror of TaskTracker.should_show_notification.  The result pairs the
returned boolean with the possibly updated tracker, because the
snooze-expired branch deletes the task from _tracked_tasks. -/
def shouldShowNotification (tr : Tracker) (taskId category : Str)
    (maxTotal maxCategory : Nat) (now : Nat) : Bool × Tracker :=
  if taskId = [] then (true, tr)
  else if checkWindowLimits tr category maxTotal maxCategory = false then (false, tr)
  else if taskId ∈ tr.active then (false, tr)
  else
    match alookup taskId tr.tracked with
    | none => (true, tr)
    | some st =>
      match st.snooze_until with
      | some su =>
        if now < su then (false, tr)
        else (true, { tr with tracked := aremove taskId tr.tracked })
      | none => (false, tr)

/-- Mirror of TaskTracker.register_notification_shown: add the freshly built
notification id to the active set and overwrite the per-task attribute. -/
def registerNotificationShown (tr : Tracker) (taskId category : Str) (now : Nat) : Tracker :=
  { tr with
    active := sinsert (mkNotifId taskId category now) tr.active,
    notifFor := aset taskId (mkNotifId taskId category now) tr.notifFor }

/-- The handle-removal step at the top of register_notification_closed,
also reused by force_show_task: look up the per-task attribute and, when the
recorded id is still active, remove it and delete the attribute. -/
def removeActiveHandle (tr : Tracker) (taskId : Str) : Tracker :=
  match alookup taskId tr.notifFor with
  | some nid =>
    if nid ∈ tr.active then
      { tr with active := sremove nid tr.active, notifFor := aremove taskId tr.notifFor }
    else tr
  | none => tr

/-- Mirror of TaskTracker._get_task_category. -/
def getTaskCategory (tr : Tracker) (taskId : Str) : Str :=
  match alookup taskId tr.tracked with
  | some st => st.category
  | none => strOf "current"

/-- Mirror of TaskTracker.register_notification_closed. -/
def registerNotificationClosed (tr : Tracker) (taskId reason : Str) (now : Nat) : Tracker :=
  let tr1 := removeActiveHandle tr taskId
  if reason = strOf "snooze_15min" then
    { tr1 with tracked := aset taskId ⟨taskId, now, some (now + 15), false, strOf "current"⟩ tr1.tracked }
  else if reason = strOf "snooze_1hour" then
    { tr1 with tracked := aset taskId ⟨taskId, now, some (now + 60), false, strOf "current"⟩ tr1.tracked }
  else if reason = strOf "done" then
    { tr1 with tracked := aset taskId ⟨taskId, now, none, false, strOf "current"⟩ tr1.tracked }
  else if reason = strOf "manual" then
    let category := getTaskCategory tr1 taskId
    { tr1 with tracked := aset taskId ⟨taskId, now, some (now + reshowIntervals category), true, category⟩ tr1.tracked }
  else tr1

/-- Mirror of TaskTracker.force_show_task: drop the tracked record, then drop
the active handle reachable through the per-task attribute. -/
def forceShowTask (tr : Tracker) (taskId : Str) : Tracker :=
  removeActiveHandle { tr with tracked := aremove taskId tr.tracked } taskId

/-- Mirror of TaskTracker.cleanup_old_tasks: delete the tracked records whose
closed_time lies strictly before the cutoff now - max_age_hours. -/
def cleanupOldTasks (tr : Tracker) (maxAgeHours : Nat) (now : Nat) : Tracker :=
  { tr with tracked := tr.tracked.filter (fun e => decide (now - maxAgeHours * 60 ≤ e.2.closed_time)) }

/-- Calendar date, mirroring datetime.date. -/
structure Date where
  year : Nat
  month : Nat
  day : Nat
deriving DecidableEq

def isLeapYear (y : Nat) : Bool :=
  (decide (y % 4 = 0) && !decide (y % 100 = 0)) || decide (y % 400 = 0)

def daysInMonth (y m : Nat) : Nat :=
  if m = 2 then (if isLeapYear y then 29 else 28)
  else if m = 4 ∨ m = 6 ∨ m = 9 ∨ m = 11 then 30
  else 31

/-- Strict comparison of dates, as datetime.date orders them. -/
def Date.lt (a b : Date) : Bool :=
  decide (a.year < b.year) ||
    (decide (a.year = b.year) &&
      (decide (a.month < b.month) ||
        (decide (a.month = b.month) && decide (a.day < b.day))))

def Date.le (a b : Date) : Bool := Date.lt a b || decide (a = b)

/-- The value of today + datetime.timedelta(days=1). -/
def nextDay (d : Date) : Date :=
  if d.day < daysInMonth d.year d.month then ⟨d.year, d.month, d.day + 1⟩
  else if d.month < 12 then ⟨d.year, d.month + 1, 1⟩
  else ⟨d.year + 1, 1, 1⟩

/-- Range checks performed by the datetime constructors (MINYEAR = 1,
MAXYEAR = 9999, month 1..12, day 1..days-in-month). -/
def validYMD (y m d : Nat) : Bool :=
  decide (1 ≤ y) && decide (y ≤ 9999) && decide (1 ≤ m) && decide (m ≤ 12) &&
    decide (1 ≤ d) && decide (d ≤ daysInMonth y m)

def digitVal (c : Char) : Nat := c.toNat - 48

def allDigits (s : Str) : Bool := s.all Char.isDigit

def digitsToNat (s : Str) : Nat := s.foldl (fun acc c => acc * 10 + digitVal c) 0

/-- Python str.split on a single separator character. -/
def splitOnChar (sep : Char) : Str → List Str
  | [] => [[]]
  | c :: rest =>
    let r := splitOnChar sep rest
    if c = sep then [] :: r
    else
      match r with
      | [] => [[c]]
      | h :: t => (c :: h) :: t

/-- Day or month field of strptime: one or two digits; value ranges are
checked by the caller through validYMD. -/
def twoDigitField (s : Str) : Option Nat :=
  if (s.length = 1 ∨ s.length = 2) ∧ allDigits s then some (digitsToNat s) else none

/-- Year field of strptime %Y: exactly four digits. -/
def fourDigitField (s : Str) : Option Nat :=
  if s.length = 4 ∧ allDigits s then some (digitsToNat s) else none

/-- Year field of strptime %y: exactly two digits, with the 1969/2068 pivot. -/
def twoDigitYearField (s : Str) : Option Nat :=
  if s.length = 2 ∧ allDigits s then
    let v := digitsToNat s
    some (if v ≤ 68 then 2000 + v else 1900 + v)
  else none

/-- datetime.strptime with format day-month-year separated by sep, reduced to
its date part; twoDigitYear selects %y instead of %Y. -/
def parseDMY (sep : Char) (twoDigitYear : Bool) (s : Str) : Option Date :=
  match splitOnChar sep s with
  | [ds, ms, ys] =>
    match twoDigitField ds, twoDigitField ms,
        (if twoDigitYear then twoDigitYearField ys else fourDigitField ys) with
    | some d, some m, some y => if validYMD y m d then some ⟨y, m, d⟩ else none
    | _, _, _ => none
  | _ => none

/-- datetime.strptime with format year-month-day separated by sep. -/
def parseYMD (sep : Char) (s : Str) : Option Date :=
  match splitOnChar sep s with
  | [ys, ms, ds] =>
    match fourDigitField ys, twoDigitField ms, twoDigitField ds with
    | some y, some m, some d => if validYMD y m d then some ⟨y, m, d⟩ else none
    | _, _, _ => none
  | _ => none

/-- The replace('Z', '+00:00') applied before fromisoformat. -/
def replaceZ (s : Str) : Str :=
  s.flatMap (fun c => if c = 'Z' then strOf "+00:00" else [c])

/-- Two decimal digits and the rest of the input. -/
def twoDigitsVal : Str → Option (Nat × Str)
  | a :: b :: rest =>
    if a.isDigit && b.isDigit then some (digitVal a * 10 + digitVal b, rest) else none
  | _ => none

/-- Validation of an isoformat time body HH[:MM[:SS[.fff or .ffffff]]], as in
the standard library parser backing datetime.fromisoformat. -/
def parseHMS (s : Str) : Bool :=
  match twoDigitsVal s with
  | none => false
  | some (h, r1) =>
    if h ≥ 24 then false
    else
      match r1 with
      | [] => true
      | ':' :: r2 =>
        match twoDigitsVal r2 with
        | none => false
        | some (mi, r3) =>
          if mi ≥ 60 then false
          else
            match r3 with
            | [] => true
            | ':' :: r4 =>
              match twoDigitsVal r4 with
              | none => false
              | some (se, r5) =>
                if se ≥ 60 then false
                else
                  match r5 with
                  | [] => true
                  | '.' :: fr =>
                    (decide (fr.length = 3) || decide (fr.length = 6)) && allDigits fr
                  | _ => false
            | _ => false
      | _ => false

def idxOfChar (c : Char) : Str → Option Nat
  | [] => none
  | d :: rest => if d = c then some 0 else (idxOfChar c rest).map (· + 1)

/-- Split a time string into its base part and the optional utc-offset part
that follows the first sign character, as fromisoformat does. -/
def splitTzParts (s : Str) : Str × Option Str :=
  match idxOfChar '-' s with
  | some i => (s.take i, some (s.drop (i + 1)))
  | none =>
    match idxOfChar '+' s with
    | some i => (s.take i, some (s.drop (i + 1)))
    | none => (s, none)

def validIsoTime (s : Str) : Bool :=
  match splitTzParts s with
  | (base, none) => parseHMS base
  | (base, some tz) => parseHMS base && parseHMS tz

/-- Models datetime.fromisoformat(s).date(): a YYYY-MM-DD date part, then
optionally one separator character and a valid time-of-day with optional
utc offset. -/
def isoParse (s : Str) : Option Date :=
  match s with
  | y1 :: y2 :: y3 :: y4 :: '-' :: m1 :: m2 :: '-' :: d1 :: d2 :: rest =>
    if allDigits [y1, y2, y3, y4, m1, m2, d1, d2] then
      let y := digitsToNat [y1, y2, y3, y4]
      let m := digitVal m1 * 10 + digitVal m2
      let d := digitVal d1 * 10 + digitVal d2
      if validYMD y m d then
        match rest with
        | [] => some ⟨y, m, d⟩
        | _ :: timePart => if validIsoTime timePart then some ⟨y, m, d⟩ else none
      else none
    else none
  | _ => none

/-- Mirror of TaskProcessor._parse_date_string: an ISO branch for strings
containing T, then dash formats %d-%m-%Y, %Y-%m-%d, %d-%m-%y tried in order,
then dot formats %d.%m.%Y, %d.%m.%y. -/
def parseDateString (s : Str) : Option Date :=
  if s.contains 'T' then isoParse (replaceZ s)
  else if s.contains '-' then
    match parseDMY '-' false s with
    | some d => some d
    | none =>
      match parseYMD '-' s with
      | some d => some d
      | none => parseDMY '-' true s
  else if s.contains '.' then
    match parseDMY '.' false s with
    | some d => some d
    | none => parseDMY '.' true s
  else none

/-- Value of a task's status field: either a dictionary with an optional
name entry, or any other value already rendered by str. -/
inductive StatusVal where
  | sdict (name : Option Str)
  | sstr (v : Str)
deriving DecidableEq

/-- Value found in the endDateTime or endDate field of a task: either a
sub-dictionary with optional datetime, date and dateTimeUtcSeconds entries,
or a plain value rendered by str. -/
inductive DateInfo where
  | ddict (dt d utc : Option Str)
  | dstr (v : Str)
deriving DecidableEq

/-- Python truthiness of the field value, for the guard
if not date_info: continue.  An empty dictionary and the empty string are
falsy; a dictionary whose entries are all missing behaves the same either
way, since the subsequent truthiness gate on the extracted string skips it. -/
def DateInfo.falsy : DateInfo → Bool
  | .ddict none none none => true
  | .ddict _ _ _ => false
  | .dstr v => v.isEmpty

/-- First truthy value of an or-chain over optional strings. -/
def firstTruthy : List (Option Str) → Option Str
  | [] => none
  | some v :: rest => if v.isEmpty then firstTruthy rest else some v
  | none :: rest => firstTruthy rest

/-- The date string drawn from a field value: for a dictionary the or-chain
over datetime, date and dateTimeUtcSeconds; otherwise the str() rendering.
The result is gated by the if date_str: truthiness test of the source, so a
falsy result is collapsed to none. -/
def DateInfo.dateStr : DateInfo → Option Str
  | .ddict dt d utc => firstTruthy [dt, d, utc]
  | .dstr v => if v.isEmpty then none else some v

/-- One iteration of the field loop in _extract_end_date. -/
def tryDateField : Option DateInfo → Option Date
  | none => none
  | some di =>
    if di.falsy then none
    else
      match di.dateStr with
      | some ds2 => parseDateString ds2
      | none => none

/-- Task record, restricted to the fields the categorizer reads. -/
structure Task where
  id : Str
  status : Option StatusVal
  overdue : Bool
  endDateTime : Option DateInfo
  endDate : Option DateInfo
deriving DecidableEq

/-- Status name extraction: status.get('name', '') when the status is a
dictionary, str(status) otherwise, '' when the field is missing. -/
def statusName (t : Task) : Str :=
  match t.status with
  | some (.sdict (some n)) => n
  | some (.sdict none) => []
  | some (.sstr v) => v
  | none => []

def closedStatuses : List Str :=
  [strOf "Выполненная", strOf "Отменена", strOf "Закрыта", strOf "Завершенная"]

def isClosedStatus (t : Task) : Bool := closedStatuses.contains (statusName t)

/-- Mirror of TaskProcessor._extract_end_date: try endDateTime, then endDate;
the first field whose string parses to a date wins. -/
def extractEndDate (t : Task) : Option Date :=
  match tryDateField t.endDateTime with
  | some d => some d
  | none => tryDateField t.endDate

/-- Result dictionary of categorize_tasks, with its three fixed keys. -/
structure Categorized where
  overdue : List Task
  urgent : List Task
  current : List Task
deriving DecidableEq

/-- Body of the per-task loop of TaskProcessor.categorize_tasks. -/
def categorizeStep (today tomorrow : Date) (acc : Categorized) (t : Task) : Categorized :=
  if isClosedStatus t then acc
  else if t.overdue then { acc with overdue := acc.overdue ++ [t] }
  else
    match extractEndDate t with
    | some d =>
      if Date.lt d today then { acc with overdue := acc.overdue ++ [t] }
      else if Date.le d tomorrow then { acc with urgent := acc.urgent ++ [t] }
      else { acc with current := acc.current ++ [t] }
    | none => { acc with current := acc.current ++ [t] }

/-- Mirror of TaskProcessor.categorize_tasks, with datetime.date.today()
passed explicitly. -/
def categorizeTasks (today : Date) (tasks : List Task) : Categorized :=
  tasks.foldl (categorizeStep today (nextDay today)) ⟨[], [], []⟩

/-- Destination predicate of the overdue result list. -/
def pOverdue (today : Date) (t : Task) : Bool :=
  !isClosedStatus t &&
    (t.overdue ||
      match extractEndDate t with
      | some d => Date.lt d today
      | none => false)

/-- Destination predicate of the urgent result list. -/
def pUrgent (today : Date) (t : Task) : Bool :=
  !isClosedStatus t && !t.overdue &&
    (match extractEndDate t with
     | some d => !Date.lt d today && Date.le d (nextDay today)
     | none => false)

/-- Destination predicate of the current result list. -/
def pCurrent (today : Date) (t : Task) : Bool :=
  !isClosedStatus t && !t.overdue &&
    (match extractEndDate t with
     | some d => !Date.lt d today && !Date.le d (nextDay today)
     | none => true)

/-- Urgency bucket of a task. -/
inductive Cat where
  | overdue | urgent | current
deriving DecidableEq

/-- Single-task classifier as the specification words it: the overdue flag
wins; otherwise the first parseable due date gives overdue when strictly
before today, urgent when at most tomorrow, current otherwise; a task with no
parseable due date is current. -/
def claimCategory (today : Date) (t : Task) : Cat :=
  if t.overdue then .overdue
  else
    match extractEndDate t with
    | some d =>
      if Date.lt d today then .overdue
      else if Date.le d (nextDay today) then .urgent
      else .current
    | none => .current

theorem alookup_aset_self {α : Type} (k : Str) (v : α) (l : List (Str × α)) :
    alookup k (aset k v l) = some v := by
  induction l with
  | nil => simp [aset, alookup]
  | cons h t ih =>
    obtain ⟨k2, v2⟩ := h
    by_cases hk : k2 = k
    · subst hk; simp [aset, alookup]
    · simp [aset, alookup, hk, ih]

theorem alookup_aremove_self {α : Type} (k : Str) (l : List (Str × α)) :
    alookup k (aremove k l) = none := by
  induction l with
  | nil => simp [aremove, alookup]
  | cons h t ih =>
    obtain ⟨k2, v2⟩ := h
    by_cases hk : k2 = k
    · simp [aremove, hk, ih]
    · simp [aremove, alookup, hk, ih]

theorem mem_sinsert_self (x : Str) (l : List Str) : x ∈ sinsert x l := by
  unfold sinsert
  split
  · assumption
  · exact List.mem_append_right _ (List.mem_singleton.mpr rfl)

theorem mem_sinsert_of_mem {x : Str} (y : Str) {l : List Str} (hx : x ∈ l) :
    x ∈ sinsert y l := by
  unfold sinsert
  split
  · exact hx
  · exact List.mem_append_left _ hx

theorem not_mem_sremove {x : Str} (y : Str) {l : List Str} (hx : x ∉ l) :
    x ∉ sremove y l := by
  induction l with
  | nil => simp [sremove]
  | cons a t ih =>
    have h1 : x ≠ a := fun he => hx (he ▸ List.mem_cons_self a t)
    have h2 : x ∉ t := fun hm => hx (List.mem_cons_of_mem a hm)
    unfold sremove
    split
    · exact ih h2
    · intro hm
      rcases List.mem_cons.mp hm with h | h
      · exact h1 h
      · exact ih h2 h

theorem two_mem_le_length {α : Type} {x y : α} {l : List α}
    (hx : x ∈ l) (hy : y ∈ l) (hxy : x ≠ y) : 2 ≤ l.length := by
  induction l with
  | nil => cases hx
  | cons a t ih =>
    rcases List.mem_cons.mp hx with hxa | hxt
    · rcases List.mem_cons.mp hy with hya | hyt
      · exact absurd (hxa.trans hya.symm) hxy
      · have := List.length_pos.mpr (List.ne_nil_of_mem hyt)
        simp only [List.length_cons]
        omega
    · have := List.length_pos.mpr (List.ne_nil_of_mem hxt)
      simp only [List.length_cons]
      omega

theorem removeActiveHandle_tracked (tr : Tracker) (t : Str) :
    (removeActiveHandle tr t).tracked = tr.tracked := by
  unfold removeActiveHandle
  rcases alookup t tr.notifFor with _ | nid
  · rfl
  · by_cases hm : nid ∈ tr.active <;> simp [hm]

theorem removeActiveHandle_not_mem_active {x : Str} (tr : Tracker) (t : Str)
    (hx : x ∉ tr.active) : x ∉ (removeActiveHandle tr t).active := by
  unfold removeActiveHandle
  rcases alookup t tr.notifFor with _ | nid
  · exact hx
  · by_cases hm : nid ∈ tr.active <;> simp [hm]
    · exact not_mem_sremove nid hx
    · exact hx

theorem registerClosed_tracked_snooze15 (tr : Tracker) (t : Str) (T : Nat) :
    (registerNotificationClosed tr t (strOf "snooze_15min") T).tracked =
      aset t ⟨t, T, some (T + 15), false, strOf "current"⟩ (removeActiveHandle tr t).tracked := by
  unfold registerNotificationClosed
  rw [if_pos rfl]

theorem registerClosed_tracked_done (tr : Tracker) (t : Str) (T : Nat) :
    (registerNotificationClosed tr t (strOf "done") T).tracked =
      aset t ⟨t, T, none, false, strOf "current"⟩ (removeActiveHandle tr t).tracked := by
  unfold registerNotificationClosed
  rw [if_neg (by decide), if_neg (by decide), if_pos rfl]

theorem registerClosed_active_snooze15 (tr : Tracker) (t : Str) (T : Nat) :
    (registerNotificationClosed tr t (strOf "snooze_15min") T).active =
      (removeActiveHandle tr t).active := by
  unfold registerNotificationClosed
  rw [if_pos rfl]

theorem registerClosed_active_done (tr : Tracker) (t : Str) (T : Nat) :
    (registerNotificationClosed tr t (strOf "done") T).active =
      (removeActiveHandle tr t).active := by
  unfold registerNotificationClosed
  rw [if_neg (by decide), if_neg (by decide), if_pos rfl]

theorem forceShow_tracked (tr : Tracker) (t : Str) :
    (forceShowTask tr t).tracked = aremove t tr.tracked := by
  unfold forceShowTask
  rw [removeActiveHandle_tracked]

theorem forceShow_not_mem_active {x : Str} (tr : Tracker) (t : Str)
    (hx : x ∉ tr.active) : x ∉ (forceShowTask tr t).active := by
  unfold forceShowTask
  exact removeActiveHandle_not_mem_active _ t hx

/-- Evaluation of should_show_notification once the degenerate-id, window
limit and active-membership gates are passed: the decision depends only on
the tracked record. -/
theorem shouldShow_eval (tr : Tracker) (t c : Str) (mt mc now : Nat)
    (ht : t ≠ []) (hlim : checkWindowLimits tr c mt mc = true) (hact : t ∉ tr.active) :
    shouldShowNotification tr t c mt mc now =
      match alookup t tr.tracked with
      | none => (true, tr)
      | some st =>
        match st.snooze_until with
        | some su =>
          if now < su then (false, tr)
          else (true, { tr with tracked := aremove t tr.tracked })
        | none => (false, tr) := by
  unfold shouldShowNotification
  rw [if_neg ht, hlim, if_neg (by decide), if_neg hact]

theorem checkWindowLimits_false_of_total {tr : Tracker} {mt : Nat} (c : Str) (mc : Nat)
    (h : mt ≤ tr.active.length) : checkWindowLimits tr c mt mc = false := by
  unfold checkWindowLimits
  rw [if_pos h]

theorem checkWindowLimits_false_of_category {tr : Tracker} {c : Str} {mc : Nat} (mt : Nat)
    (h : mc ≤ categoryWindowCount tr c) : checkWindowLimits tr c mt mc = false := by
  unfold checkWindowLimits
  by_cases hmt : tr.active.length ≥ mt
  · rw [if_pos hmt]
  · rw [if_neg hmt, if_pos h]

theorem shouldShow_false_of_limits {tr : Tracker} {t c : Str} {mt mc : Nat} (now : Nat)
    (ht : t ≠ []) (hlim : checkWindowLimits tr c mt mc = false) :
    (shouldShowNotification tr t c mt mc now).fst = false := by
  unfold shouldShowNotification
  rw [if_neg ht, if_pos hlim]

/-- C1. The claim states that after register_notification_shown(t, c), and
before any close or force-show for t, every should_show_notification(t, c,
...) call with non-empty t returns false.  The code violates it: the
membership test task_id in self._active_notifications compares the bare task
id with composite ids of the form task_category_timestamp, so it never
matches, and a fresh task with default limits is approved again.  This
theorem evaluates the model at the failing input: immediately after showing
task 42 the decision function approves a second notification for it. -/
theorem c1_active_membership_check_never_fires :
    (shouldShowNotification
        (registerNotificationShown Tracker.empty (strOf "42") (strOf "urgent") 0)
        (strOf "42") (strOf "urgent") 10 5 1).fst = true ∧
      (registerNotificationShown Tracker.empty (strOf "42") (strOf "urgent") 0).active ≠ [] := by
  decide

/-- C2, counterexample. Registering a shown notification twice for the same
task at distinct timestamps leaves two active handles for that task in the
set, refuting the claimed at-most-one-handle-per-task invariant and the
claimed overwrite behavior of register_notification_shown. -/
theorem c2_duplicate_handles_counterexample :
    ((registerNotificationShown
        (registerNotificationShown Tracker.empty (strOf "1") (strOf "urgent") 0)
        (strOf "1") (strOf "urgent") 1).active.length = 2) ∧
      ((registerNotificationShown
        (registerNotificationShown Tracker.empty (strOf "1") (strOf "urgent") 0)
        (strOf "1") (strOf "urgent") 1).active.all
          (fun nid => startsWith (strOf "1_") nid)) := by
  decide

/-- C2, amended. register_notification_shown adds the freshly built handle id
to the active set and overwrites only the per-task back-pointer attribute;
an already active handle with a different id for the same task remains, so
the set then holds at least two entries. -/
theorem c2_register_shown_accumulates (tr : Tracker) (t c old : Str) (now : Nat)
    (hold : old ∈ tr.active) (hne : old ≠ mkNotifId t c now) :
    old ∈ (registerNotificationShown tr t c now).active ∧
      mkNotifId t c now ∈ (registerNotificationShown tr t c now).active ∧
      alookup t (registerNotificationShown tr t c now).notifFor = some (mkNotifId t c now) ∧
      2 ≤ (registerNotificationShown tr t c now).active.length := by
  refine ⟨mem_sinsert_of_mem _ hold, mem_sinsert_self _ _, ?_, ?_⟩
  · exact alookup_aset_self t _ tr.notifFor
  · exact two_mem_le_length (mem_sinsert_of_mem _ hold) (mem_sinsert_self _ _) hne

theorem c2_register_shown_accumulates_witness :
    mkNotifId (strOf "1") (strOf "urgent") 0 ∈
        (registerNotificationShown
          (registerNotificationShown Tracker.empty (strOf "1") (strOf "urgent") 0)
          (strOf "1") (strOf "urgent") 1).active ∧
      mkNotifId (strOf "1") (strOf "urgent") 1 ∈
        (registerNotificationShown
          (registerNotificationShown Tracker.empty (strOf "1") (strOf "urgent") 0)
          (strOf "1") (strOf "urgent") 1).active ∧
      alookup (strOf "1")
          (registerNotificationShown
            (registerNotificationShown Tracker.empty (strOf "1") (strOf "urgent") 0)
            (strOf "1") (strOf "urgent") 1).notifFor =
        some (mkNotifId (strOf "1") (strOf "urgent") 1) ∧
      2 ≤ (registerNotificationShown
            (registerNotificationShown Tracker.empty (strOf "1") (strOf "urgent") 0)
            (strOf "1") (strOf "urgent") 1).active.length :=
  c2_register_shown_accumulates
    (registerNotificationShown Tracker.empty (strOf "1") (strOf "urgent") 0)
    (strOf "1") (strOf "urgent") (mkNotifId (strOf "1") (strOf "urgent") 0) 1
    (by decide) (by decide)

/-- C3, counterexample. A notification for task 7 displayed with category
overdue and then closed manually at time 10 stores snooze_until = 40, that
is close time plus the current-category interval of 30, not close time plus
the overdue interval of 5 the claim requires for the display-time category. -/
theorem c3_manual_close_interval_counterexample :
    alookup (strOf "7")
        (registerNotificationClosed
          (registerNotificationShown Tracker.empty (strOf "7") (strOf "overdue") 0)
          (strOf "7") (strOf "manual") 10).tracked =
      some ⟨strOf "7", 10, some 40, true, strOf "current"⟩ ∧ (40 : Nat) ≠ 10 + 5 := by
  decide

/-- C3, amended. A manual close stores snooze_until equal to the close time
plus the reshow interval of the category found in the task's existing
tracked record, with the default current (30 minutes) when no record exists;
the category the notification was displayed with is never consulted.  The
interval table itself is 5, 15 and 30 minutes for overdue, urgent and
current. -/
theorem c3_manual_close_uses_tracked_category (tr : Tracker) (t : Str) (now : Nat) :
    alookup t (registerNotificationClosed tr t (strOf "manual") now).tracked =
        some ⟨t, now, some (now + reshowIntervals (getTaskCategory tr t)), true,
          getTaskCategory tr t⟩ ∧
      reshowIntervals (strOf "overdue") = 5 ∧
      reshowIntervals (strOf "urgent") = 15 ∧
      reshowIntervals (strOf "current") = 30 := by
  refine ⟨?_, by decide, by decide, by decide⟩
  unfold registerNotificationClosed
  rw [if_neg (by decide), if_neg (by decide), if_neg (by decide), if_pos rfl]
  have hcat : getTaskCategory (removeActiveHandle tr t) t = getTaskCategory tr t := by
    unfold getTaskCategory
    rw [removeActiveHandle_tracked]
  dsimp only
  rw [hcat]
  exact alookup_aset_self t _ (removeActiveHandle tr t).tracked

/-- C5. Closing with snooze_15min at time T makes should_show_notification
return false at any check strictly before T + 15 and true at any check at or
after T + 15, deleting the tracked record on that true-returning call, given
that the window limits pass and the task id is not caught by the
active-membership gate. -/
theorem c5_snooze15_monotonic (tr : Tracker) (t c : Str) (mt mc T n1 n2 : Nat)
    (ht : t ≠ [])
    (hlim : checkWindowLimits (registerNotificationClosed tr t (strOf "snooze_15min") T) c mt mc = true)
    (hact : t ∉ (registerNotificationClosed tr t (strOf "snooze_15min") T).active)
    (h1 : n1 < T + 15) (h2 : T + 15 ≤ n2) :
    (shouldShowNotification (registerNotificationClosed tr t (strOf "snooze_15min") T)
        t c mt mc n1).fst = false ∧
      (shouldShowNotification (registerNotificationClosed tr t (strOf "snooze_15min") T)
        t c mt mc n2).fst = true ∧
      alookup t (shouldShowNotification (registerNotificationClosed tr t (strOf "snooze_15min") T)
        t c mt mc n2).snd.tracked = none := by
  have htracked :
      alookup t (registerNotificationClosed tr t (strOf "snooze_15min") T).tracked =
        some ⟨t, T, some (T + 15), false, strOf "current"⟩ := by
    rw [registerClosed_tracked_snooze15]
    exact alookup_aset_self t _ _
  have he1 := shouldShow_eval _ t c mt mc n1 ht hlim hact
  have he2 := shouldShow_eval _ t c mt mc n2 ht hlim hact
  rw [htracked] at he1 he2
  dsimp only at he1 he2
  rw [if_pos h1] at he1
  rw [if_neg (Nat.not_lt.mpr h2)] at he2
  refine ⟨by rw [he1], by rw [he2], ?_⟩
  rw [he2]
  exact alookup_aremove_self t _

theorem c5_snooze15_monotonic_witness :
    (shouldShowNotification (registerNotificationClosed Tracker.empty (strOf "a") (strOf "snooze_15min") 0)
        (strOf "a") (strOf "urgent") 10 5 10).fst = false ∧
      (shouldShowNotification (registerNotificationClosed Tracker.empty (strOf "a") (strOf "snooze_15min") 0)
        (strOf "a") (strOf "urgent") 10 5 20).fst = true ∧
      alookup (strOf "a")
        (shouldShowNotification (registerNotificationClosed Tracker.empty (strOf "a") (strOf "snooze_15min") 0)
          (strOf "a") (strOf "urgent") 10 5 20).snd.tracked = none :=
  c5_snooze15_monotonic Tracker.empty (strOf "a") (strOf "urgent") 10 5 0 10 20
    (by decide) (by decide) (by decide) (by decide) (by decide)

/-- C6. Closing with reason done stores a record without snooze_until, which
makes should_show_notification return false at every later time; calling
force_show_task for the task afterwards deletes that record, so the next
should_show_notification returns true, window limits permitting. -/
theorem c6_done_sticky_force_show (tr : Tracker) (t c c2 : Str)
    (mt mc mt2 mc2 T n m : Nat)
    (ht : t ≠ [])
    (hlim1 : checkWindowLimits (registerNotificationClosed tr t (strOf "done") T) c mt mc = true)
    (hact1 : t ∉ (registerNotificationClosed tr t (strOf "done") T).active)
    (hlim2 : checkWindowLimits
        (forceShowTask (registerNotificationClosed tr t (strOf "done") T) t) c2 mt2 mc2 = true) :
    (shouldShowNotification (registerNotificationClosed tr t (strOf "done") T)
        t c mt mc n).fst = false ∧
      (shouldShowNotification (forceShowTask (registerNotificationClosed tr t (strOf "done") T) t)
        t c2 mt2 mc2 m).fst = true := by
  have htracked :
      alookup t (registerNotificationClosed tr t (strOf "done") T).tracked =
        some ⟨t, T, none, false, strOf "current"⟩ := by
    rw [registerClosed_tracked_done]
    exact alookup_aset_self t _ _
  constructor
  · have he := shouldShow_eval _ t c mt mc n ht hlim1 hact1
    rw [htracked] at he
    dsimp only at he
    rw [he]
  · have hact2 : t ∉ (forceShowTask (registerNotificationClosed tr t (strOf "done") T) t).active :=
      forceShow_not_mem_active _ t hact1
    have he := shouldShow_eval _ t c2 mt2 mc2 m ht hlim2 hact2
    rw [forceShow_tracked, alookup_aremove_self] at he
    rw [he]

theorem c6_done_sticky_force_show_witness :
    (shouldShowNotification (registerNotificationClosed Tracker.empty (strOf "b") (strOf "done") 0)
        (strOf "b") (strOf "urgent") 10 5 1000).fst = false ∧
      (shouldShowNotification
        (forceShowTask (registerNotificationClosed Tracker.empty (strOf "b") (strOf "done") 0) (strOf "b"))
        (strOf "b") (strOf "current") 10 5 1001).fst = true :=
  c6_done_sticky_force_show Tracker.empty (strOf "b") (strOf "urgent") (strOf "current")
    10 5 10 5 0 1000 1001 (by decide) (by decide) (by decide) (by decide)

/-- C7. The window limits are enforced just as the claim states: for any
non-empty task id the decision is false whenever the number of active
notifications has reached max_total_windows, and whenever the count of
active notifications carrying the category marker has reached
max_windows_per_category; concretely, with max_total_windows = 2 a third
task's check is refused after two distinct tasks were shown, and with
max_windows_per_category = 1 a second urgent task is refused while one
urgent notification is active even though total capacity remains. -/
theorem c7_window_limits_enforced :
    (∀ (tr : Tracker) (t c : Str) (mt mc now : Nat),
        t ≠ [] → mt ≤ tr.active.length →
        (shouldShowNotification tr t c mt mc now).fst = false) ∧
      (∀ (tr : Tracker) (t c : Str) (mt mc now : Nat),
        t ≠ [] → mc ≤ categoryWindowCount tr c →
        (shouldShowNotification tr t c mt mc now).fst = false) ∧
      (shouldShowNotification
        (registerNotificationShown
          (registerNotificationShown Tracker.empty (strOf "1") (strOf "overdue") 0)
          (strOf "2") (strOf "urgent") 1)
        (strOf "3") (strOf "current") 2 5 9).fst = false ∧
      ((shouldShowNotification
          (registerNotificationShown Tracker.empty (strOf "1") (strOf "urgent") 0)
          (strOf "2") (strOf "urgent") 10 1 9).fst = false ∧
        (registerNotificationShown Tracker.empty (strOf "1") (strOf "urgent") 0).active.length = 1) := by
  refine ⟨?_, ?_, by decide, by decide⟩
  · intro tr t c mt mc now ht h
    exact shouldShow_false_of_limits now ht (checkWindowLimits_false_of_total c mc h)
  · intro tr t c mt mc now ht h
    exact shouldShow_false_of_limits now ht (checkWindowLimits_false_of_category mt h)

theorem c7_window_limits_enforced_witness :
    (shouldShowNotification
        (registerNotificationShown Tracker.empty (strOf "1") (strOf "urgent") 0)
        (strOf "9") (strOf "current") 1 7 0).fst = false :=
  c7_window_limits_enforced.1
    (registerNotificationShown Tracker.empty (strOf "1") (strOf "urgent") 0)
    (strOf "9") (strOf "current") 1 7 0 (by decide) (by decide)

/-- C9, counterexample. Cleanup with max_age 0 computes the cutoff as the
current instant and deletes only records closed strictly before it: a record
whose closed_time equals the cleanup time survives, so the claim that every
tracked record is removed fails at this input. -/
theorem c9_cleanup_boundary_counterexample :
    (cleanupOldTasks
        ⟨[(strOf "a", ⟨strOf "a", 5, none, false, strOf "current"⟩)], [strOf "h"], []⟩
        0 5).tracked =
      [(strOf "a", ⟨strOf "a", 5, none, false, strOf "current"⟩)] ∧
    [(strOf "a", (⟨strOf "a", 5, none, false, strOf "current"⟩ : TaskState))] ≠
      ([] : List (Str × TaskState)) := by
  decide

/-- C9, amended. Cleanup with max_age 0 keeps exactly the tracked records
whose closed_time is at or after the cleanup instant, removing every record
closed strictly before it regardless of state, and leaves the active handle
set and the per-task attributes untouched. -/
theorem c9_cleanup_strict_cutoff (tr : Tracker) (now : Nat) :
    (cleanupOldTasks tr 0 now).active = tr.active ∧
      (cleanupOldTasks tr 0 now).notifFor = tr.notifFor ∧
      ∀ e : Str × TaskState,
        (e ∈ (cleanupOldTasks tr 0 now).tracked ↔ e ∈ tr.tracked ∧ now ≤ e.2.closed_time) := by
  refine ⟨rfl, rfl, ?_⟩
  intro e
  unfold cleanupOldTasks
  dsimp only
  rw [List.mem_filter]
  simp

theorem date_lt_iff (a b : Date) :
    Date.lt a b = true ↔
      (a.year < b.year ∨ (a.year = b.year ∧
        (a.month < b.month ∨ (a.month = b.month ∧ a.day < b.day)))) := by
  unfold Date.lt
  simp [Bool.or_eq_true, Bool.and_eq_true, decide_eq_true_eq]

theorem date_eq_iff (a b : Date) :
    a = b ↔ (a.year = b.year ∧ a.month = b.month ∧ a.day = b.day) := by
  cases a; cases b; simp [Date.mk.injEq]

theorem date_lt_irrefl (a : Date) : Date.lt a a = false := by
  rw [← Bool.not_eq_true, date_lt_iff]
  omega

theorem date_le_refl (a : Date) : Date.le a a = true := by
  unfold Date.le
  simp

theorem lt_nextDay_self (d : Date) : Date.lt d (nextDay d) = true := by
  unfold nextDay
  split_ifs <;> (rw [date_lt_iff]; dsimp only; omega)

theorem nextDay_not_lt (d : Date) : Date.lt (nextDay d) d = false := by
  unfold nextDay
  split_ifs <;> (rw [← Bool.not_eq_true, date_lt_iff]; dsimp only; omega)

theorem date_lt_asym_trans (x y z : Date)
    (h1 : Date.lt x y = true) (h2 : Date.lt y z = true) :
    Date.lt z x = false ∧ Date.le z y = false := by
  rw [date_lt_iff] at h1 h2
  have hzx : ¬ (z.year < x.year ∨ (z.year = x.year ∧
      (z.month < x.month ∨ (z.month = x.month ∧ z.day < x.day)))) := by omega
  have hzy : ¬ (z.year < y.year ∨ (z.year = y.year ∧
      (z.month < y.month ∨ (z.month = y.month ∧ z.day < y.day)))) := by omega
  have hne : ¬ (z = y) := by rw [date_eq_iff]; omega
  constructor
  · cases h : Date.lt z x
    · rfl
    · exact absurd ((date_lt_iff z x).mp h) hzx
  · cases h : Date.lt z y
    · simp [Date.le, h, hne]
    · exact absurd ((date_lt_iff z y).mp h) hzy

/-- C4, counterexample. With today = 2026-01-15, a task whose endDate parses
to exactly today is placed in the urgent list and not in the overdue list,
refuting the claim that a task due today classifies as overdue. -/
theorem c4_due_today_counterexample :
    (categorizeTasks ⟨2026, 1, 15⟩
        [{ id := strOf "5", status := none, overdue := false, endDateTime := none,
           endDate := some (.dstr (strOf "15-01-2026")) }]).overdue = [] ∧
      (categorizeTasks ⟨2026, 1, 15⟩
        [{ id := strOf "5", status := none, overdue := false, endDateTime := none,
           endDate := some (.dstr (strOf "15-01-2026")) }]).urgent =
        [{ id := strOf "5", status := none, overdue := false, endDateTime := none,
           endDate := some (.dstr (strOf "15-01-2026")) }] ∧
      extractEndDate
        { id := strOf "5", status := none, overdue := false, endDateTime := none,
          endDate := some (.dstr (strOf "15-01-2026")) } = some ⟨2026, 1, 15⟩ := by
  decide

/-- C4, amended. For a non-closed task without the overdue flag and with a
parseable due date: a task due exactly tomorrow classifies as urgent, a task
due today also classifies as urgent (only dates strictly before today are
overdue), and a task due strictly after tomorrow classifies as current. -/
theorem c4_boundaries_amended (today : Date) (t : Task) (d : Date)
    (hcl : isClosedStatus t = false) (hov : t.overdue = false)
    (hd : extractEndDate t = some d) :
    (d = nextDay today → categorizeTasks today [t] = ⟨[], [t], []⟩) ∧
      (d = today → categorizeTasks today [t] = ⟨[], [t], []⟩) ∧
      (Date.lt (nextDay today) d = true → categorizeTasks today [t] = ⟨[], [], [t]⟩) := by
  have hstep : categorizeTasks today [t] = categorizeStep today (nextDay today) ⟨[], [], []⟩ t := rfl
  refine ⟨?_, ?_, ?_⟩ <;> intro hcase
  · subst hcase
    rw [hstep]
    unfold categorizeStep
    rw [if_neg (by simp [hcl]), if_neg (by simp [hov]), hd]
    dsimp only
    rw [if_neg (by simp [nextDay_not_lt]), if_pos (by simp [date_le_refl])]
    simp
  · subst hcase
    rw [hstep]
    unfold categorizeStep
    rw [if_neg (by simp [hcl]), if_neg (by simp [hov]), hd]
    dsimp only
    rw [if_neg (by simp [date_lt_irrefl]), if_pos (by simp [Date.le, lt_nextDay_self])]
    simp
  · rw [hstep]
    unfold categorizeStep
    rw [if_neg (by simp [hcl]), if_neg (by simp [hov]), hd]
    dsimp only
    obtain ⟨hlt, hle⟩ := date_lt_asym_trans today (nextDay today) d (lt_nextDay_self today) hcase
    rw [if_neg (by simp [hlt]), if_neg (by simp [hle])]
    simp

theorem c4_boundaries_amended_witness :
    categorizeTasks ⟨2026, 1, 15⟩
        [{ id := strOf "5", status := none, overdue := false, endDateTime := none,
           endDate := some (.dstr (strOf "15-01-2026")) }] =
      ⟨[], [{ id := strOf "5", status := none, overdue := false, endDateTime := none,
              endDate := some (.dstr (strOf "15-01-2026")) }], []⟩ :=
  (c4_boundaries_amended ⟨2026, 1, 15⟩
      { id := strOf "5", status := none, overdue := false, endDateTime := none,
        endDate := some (.dstr (strOf "15-01-2026")) }
      ⟨2026, 1, 15⟩ (by decide) (by decide) (by decide)).2.1 rfl

theorem categorize_singleton (today : Date) (t : Task) (hcl : isClosedStatus t = false) :
    categorizeTasks today [t] =
      match claimCategory today t with
      | .overdue => ⟨[t], [], []⟩
      | .urgent => ⟨[], [t], []⟩
      | .current => ⟨[], [], [t]⟩ := by
  have hstep : categorizeTasks today [t] = categorizeStep today (nextDay today) ⟨[], [], []⟩ t := rfl
  rw [hstep]
  unfold categorizeStep claimCategory
  cases hov : t.overdue <;> cases he : extractEndDate t <;>
    simp [hcl, hov, he] <;> split_ifs <;> rfl

/-- C8. The categorizer realizes, task by task, the classification the
specification describes: claimCategory (overdue flag first, then the first
parseable due date compared against today and tomorrow, default current)
names exactly the result list a non-closed task lands in, and the due date
extraction takes endDateTime with priority over endDate, using the first
field that parses. -/
theorem c8_classifier_pipeline (today : Date) (t : Task) (hcl : isClosedStatus t = false) :
    (claimCategory today t = Cat.overdue → categorizeTasks today [t] = ⟨[t], [], []⟩) ∧
      (claimCategory today t = Cat.urgent → categorizeTasks today [t] = ⟨[], [t], []⟩) ∧
      (claimCategory today t = Cat.current → categorizeTasks today [t] = ⟨[], [], [t]⟩) ∧
      (∀ d : Date, tryDateField t.endDateTime = some d → extractEndDate t = some d) ∧
      (tryDateField t.endDateTime = none → extractEndDate t = tryDateField t.endDate) := by
  refine ⟨?_, ?_, ?_, ?_, ?_⟩
  · intro h; rw [categorize_singleton today t hcl, h]
  · intro h; rw [categorize_singleton today t hcl, h]
  · intro h; rw [categorize_singleton today t hcl, h]
  · intro d h; unfold extractEndDate; rw [h]
  · intro h; unfold extractEndDate; rw [h]

theorem c8_classifier_pipeline_witness :
    categorizeTasks ⟨2026, 3, 10⟩
        [{ id := strOf "1", status := none, overdue := true, endDateTime := none,
           endDate := none }] =
      ⟨[{ id := strOf "1", status := none, overdue := true, endDateTime := none,
          endDate := none }], [], []⟩ :=
  (c8_classifier_pipeline ⟨2026, 3, 10⟩
      { id := strOf "1", status := none, overdue := true, endDateTime := none, endDate := none }
      (by decide)).1 (by decide)

theorem categorizeStep_eq (today : Date) (acc : Categorized) (t : Task) :
    categorizeStep today (nextDay today) acc t =
      ⟨acc.overdue ++ (if pOverdue today t then [t] else []),
       acc.urgent ++ (if pUrgent today t then [t] else []),
       acc.current ++ (if pCurrent today t then [t] else [])⟩ := by
  unfold categorizeStep pOverdue pUrgent pCurrent
  cases hcl : isClosedStatus t <;> cases hov : t.overdue <;> cases he : extractEndDate t <;>
    simp [hcl, hov, he] <;> split_ifs <;> simp_all

theorem categorize_foldl (today : Date) (l : List Task) (acc : Categorized) :
    l.foldl (categorizeStep today (nextDay today)) acc =
      ⟨acc.overdue ++ l.filter (pOverdue today),
       acc.urgent ++ l.filter (pUrgent today),
       acc.current ++ l.filter (pCurrent today)⟩ := by
  induction l generalizing acc with
  | nil => simp
  | cons x xs ih =>
    rw [List.foldl_cons, ih, categorizeStep_eq]
    dsimp only
    by_cases h1 : pOverdue today x <;> by_cases h2 : pUrgent today x <;>
      by_cases h3 : pCurrent today x <;>
      simp [List.filter_cons, h1, h2, h3, List.append_assoc]

/-- C10. categorize_tasks returns the structure with exactly the three lists
overdue, urgent and current; each list is the order-preserving filter of the
input by its destination predicate; and for every task the three predicates
sum to one when the task's status is not in the closed set and to zero when
it is, so every non-closed input task lands in exactly one list and closed
tasks in none.  The embedding is a total function, matching the
never-raises contract of the source. -/
theorem c10_categorize_partition (today : Date) (tasks : List Task) :
    categorizeTasks today tasks =
      ⟨tasks.filter (pOverdue today), tasks.filter (pUrgent today),
        tasks.filter (pCurrent today)⟩ ∧
      ∀ t : Task,
        (pOverdue today t).toNat + (pUrgent today t).toNat + (pCurrent today t).toNat =
          (if isClosedStatus t then 0 else 1) := by
  constructor
  · unfold categorizeTasks
    rw [categorize_foldl]
    simp
  · intro t
    unfold pOverdue pUrgent pCurrent
    cases hcl : isClosedStatus t
    · cases hov : t.overdue
      · cases he : extractEndDate t with
        | none => simp [hcl, hov, he]
        | some d =>
          cases hlt : Date.lt d today <;> cases hle : Date.le d (nextDay today) <;>
            simp [hcl, hov, he, hlt, hle]
      · simp [hcl, hov]
    · simp [hcl]

end Planfix
